import Mathlib

/-!
# Verification of the Keithley 2400 command server
  (src/serverPython/Keithley2400_server.py)

Shallow embedding of the server's command dispatcher (`process_command`),
its per-session command loop (`handle_client`), the sweep engine
(the `voltage_sweep` branch), the read path with its performance counters,
and the statistics reporter tick (`stats_reporter`).

Modelling conventions:
* Python floats are modelled as exact rationals (ℚ).  `float(...)` parsing
  of a decimal literal (optional sign, digits, optional fraction, optional
  exponent) is modelled by `pyFloat`; non-finite literals such as inf/nan,
  which a SCPI instrument reply never contains, are out of scope.
* The instrument is modelled as an oracle `ℕ → Except String String`
  giving, per command execution, the reply (or the raised error message)
  of the n-th `query` issued by that execution.  `write` calls are modelled
  as always succeeding; every claim under study concerns query failures.
* An instrument-facing call is an `ICall`.  A write of a SCPI header
  followed by a formatted numeric argument (Python f-string such as
  `f":SOUR:VOLT {voltage}"`) is `ICall.writeNum header value`.
* Wall-clock data (`timestamp`, `read_time_ms`) are always produced by the
  Python code (never `None`); they are abstracted away from `Measurement`,
  whose optional fields model exactly the fields the code can set to `None`.
* `time.sleep` delays are ignored: they do not affect any value or trace.
-/

deriving instance DecidableEq for Except

/-- One instrument-facing call issued through the pyvisa handle. -/
inductive ICall
  | write (cmd : String)
  | writeNum (cmd : String) (x : ℚ)
  | query (cmd : String)
deriving DecidableEq, Repr

/-- The measurement dict built by the `read` branch.  `voltage`, `current`
are always present on success; `resistance` and `power` are the two fields
the standard-mode path can set to `None`. -/
structure Measurement where
  voltage : ℚ
  current : ℚ
  resistance : Option ℚ
  power : Option ℚ
deriving DecidableEq, Repr

/-- One entry of the sweep result list (timestamp abstracted). -/
structure SweepEntry where
  set_voltage : ℚ
  measured_voltage : ℚ
  measured_current : ℚ
deriving DecidableEq, Repr

/-- Payload of a success response (`data` field of the JSON reply). -/
inductive RespData
  | str (s : String)
  | meas (m : Measurement)
  | sweep (rs : List SweepEntry)
  | status (idn : String) (output : String) (source_function : String)
      (fast_mode : Bool) (read_count : ℕ) (error_count : ℕ)
deriving DecidableEq, Repr

/-- A JSON response: `{"status": "success", ...}` or `{"status": "error", "message": ...}`. -/
inductive Response
  | success (message : Option String) (data : Option RespData)
  | failure (message : String)
deriving DecidableEq, Repr

/-- The server-side mutable state the claims depend on: the fast-mode flag
and the two performance counters. -/
structure ServerState where
  fast_mode : Bool
  read_count : ℕ
  error_count : ℕ
deriving DecidableEq, Repr

/-- A decoded command, after the `cmd_data.get(..., default)` lookups have
been resolved (`range = none` models the `AUTO` default). -/
inductive Command
  | write (cmd : String)
  | query (cmd : String)
  | read
  | setup_voltage_source (voltage : ℚ) (range : Option ℚ) (compliance : ℚ)
  | setup_current_source (current : ℚ) (range : Option ℚ) (compliance : ℚ)
  | output (state : String)
  | voltage_sweep (start stop : ℚ) (steps : ℤ) (compliance : ℚ)
  | get_status
  | reset
  | set_fast_mode (enabled : Bool)
  | unknown (tag : String)

/-- Reply stream of the instrument for one command execution: the n-th
`query` of the execution returns `.ok reply` or raises `.error msg`. -/
abbrev Oracle := ℕ → Except String String

/-- Characters of `s` with leading and trailing whitespace removed
(Python `str.strip()`), structural so that proofs can evaluate it. -/
def trimChars (cs : List Char) : List Char :=
  ((cs.dropWhile Char.isWhitespace).reverse.dropWhile Char.isWhitespace).reverse

/-- Python `str.strip()`. -/
def pyStrip (s : String) : String := String.mk (trimChars s.toList)

/-- Split a character list on `,` (Python `str.split(",")`): always at
least one group, empty groups preserved. -/
def splitCommaChars : List Char → List (List Char)
  | [] => [[]]
  | c :: rest =>
    if c = ',' then [] :: splitCommaChars rest
    else
      match splitCommaChars rest with
      | [] => [[c]]
      | g :: gs => (c :: g) :: gs

/-- Python `s.split(",")`. -/
def pySplitComma (s : String) : List String :=
  (splitCommaChars s.toList).map (fun cs => String.mk cs)

/-- Is `pat` a prefix of `hay`? -/
def isPrefixChars : List Char → List Char → Bool
  | [], _ => true
  | _ :: _, [] => false
  | a :: pat, b :: hay => a == b && isPrefixChars pat hay

/-- Does `pat` occur as a contiguous substring of `hay`
(Python `pat in hay`)? -/
def containsSub : List Char → List Char → Bool
  | [], pat => pat.isEmpty
  | b :: hay, pat => isPrefixChars pat (b :: hay) || containsSub hay pat

/-- Python lowercasing of a string, character-wise. -/
def lowerChars (cs : List Char) : List Char := cs.map Char.toLower

/-- Nonempty digit string to a natural number. -/
def parseDigits (cs : List Char) : Option ℕ :=
  match cs with
  | [] => none
  | _ => cs.foldlM (fun a c => if c.isDigit then some (a * 10 + (c.toNat - 48)) else none) 0

/-- Split a character list at the first character satisfying `p`;
the second component is `none` when no such character occurs. -/
def splitAtChar (p : Char → Bool) : List Char → List Char × Option (List Char)
  | [] => ([], none)
  | c :: rest =>
    if p c then ([], some rest)
    else
      let r := splitAtChar p rest
      (c :: r.1, r.2)

/-- Consume an optional leading sign; `true` means negative. -/
def parseSign : List Char → Bool × List Char
  | '-' :: cs => (true, cs)
  | '+' :: cs => (false, cs)
  | cs => (false, cs)

/-- Unsigned mantissa `digits[.digits]` as an exact rational. -/
def parseMantissa (cs : List Char) : Option ℚ :=
  let r := splitAtChar (fun c => c == '.') cs
  match r.2 with
  | none =>
    match parseDigits r.1 with
    | none => none
    | some n => some ((n : ℚ))
  | some fp =>
    match r.1, fp with
    | [], [] => none
    | ip, fpd =>
      let ipn := if ip.isEmpty then some 0 else parseDigits ip
      let fpn := if fpd.isEmpty then some 0 else parseDigits fpd
      match ipn, fpn with
      | some a, some b => some ((a : ℚ) + (b : ℚ) / ((10 : ℚ)) ^ fpd.length)
      | _, _ => none

/-- Model of Python `float(s)` on finite decimal literals: optional
whitespace, optional sign, mantissa, optional `e`/`E` exponent.
`none` models a raised `ValueError`. -/
def pyFloat (s : String) : Option ℚ :=
  let sg := parseSign (trimChars s.toList)
  let me := splitAtChar (fun c => c == 'e' || c == 'E') sg.2
  match parseMantissa me.1 with
  | none => none
  | some m0 =>
    let m := if sg.1 then -m0 else m0
    match me.2 with
    | none => some m
    | some ecs =>
      let esg := parseSign ecs
      match parseDigits esg.2 with
      | none => none
      | some e => some (if esg.1 then m / ((10 : ℚ)) ^ e else m * ((10 : ℚ)) ^ e)

/-- `reading = reply.strip(); values = reading.split(","); float(values[0]),
float(values[1])` — the shared head of the read path and of each sweep step,
with Python's left-to-right evaluation (and hence error) order. -/
def parseReading (s : String) : Except String (ℚ × ℚ) :=
  let values := pySplitComma (pyStrip s)
  match values[0]? with
  | none => .error "list index out of range"
  | some v0 =>
    match pyFloat v0 with
    | none => .error "could not convert string to float"
    | some mv =>
      match values[1]? with
      | none => .error "list index out of range"
      | some v1 =>
        match pyFloat v1 with
        | none => .error "could not convert string to float"
        | some mc => .ok (mv, mc)

/-- `float(values[i]) if len(values) > i else None`. -/
def parseOpt (values : List String) (i : ℕ) : Except String (Option ℚ) :=
  match values[i]? with
  | none => .ok none
  | some v =>
    match pyFloat v with
    | none => .error "could not convert string to float"
    | some x => .ok (some x)

/-- `abs(current) > 1e-12`, the open-circuit epsilon of the fast read path. -/
def fastEpsilon : ℚ := 1 / 1000000000000

/-- `1e9`, the sentinel resistance substituted for an open circuit. -/
def openCircuitResistance : ℚ := 1000000000

/-- The body of the inner `try` of the `read` branch: the measurement built
from the instrument reply, or the raised error.  `fast` selects the
fast-mode path (derive resistance and power locally) versus the
standard path (take fields 2 and 3 from the reply when present). -/
def readAttempt (fast : Bool) (reply : Except String String) : Except String Measurement :=
  match reply with
  | .error e => .error e
  | .ok result =>
    match parseReading result with
    | .error e => .error e
    | .ok vc =>
      if fast then
        let resistance :=
          if |vc.2| > fastEpsilon then vc.1 / vc.2 else openCircuitResistance
        .ok { voltage := vc.1, current := vc.2,
              resistance := some resistance, power := some (vc.1 * vc.2) }
      else
        let values := pySplitComma (pyStrip result)
        match parseOpt values 2 with
        | .error e => .error e
        | .ok r =>
          match parseOpt values 3 with
          | .error e => .error e
          | .ok p =>
            .ok { voltage := vc.1, current := vc.2, resistance := r, power := p }

/-- The timeout classification of the read error handler:
`"timeout" in error_msg.lower() or "VI_ERROR_TMO" in error_msg`. -/
def isTimeoutMsg (msg : String) : Bool :=
  containsSub (lowerChars msg.toList) "timeout".toList
    || containsSub msg.toList "VI_ERROR_TMO".toList

/-- Result of one execution of the `read` branch. -/
structure ReadOutcome where
  read_count : ℕ
  error_count : ℕ
  response : Response
  logged : Bool
deriving DecidableEq, Repr

/-- The `read` branch of `process_command`: increment the read counter,
attempt the measurement, and on failure increment the error counter and
decide whether a log record is emitted (timeouts only on
`error_count % 20 == 1`, every other failure always). -/
def handleRead (fast : Bool) (read_count error_count : ℕ)
    (reply : Except String String) : ReadOutcome :=
  let rc := read_count + 1
  match readAttempt fast reply with
  | .ok m => ⟨rc, error_count, .success none (some (.meas m)), false⟩
  | .error e =>
    let ec := error_count + 1
    let logged := if isTimeoutMsg e then ec % 20 == 1 else true
    ⟨rc, ec, .failure e, logged⟩

/-- The five setup writes issued by the `voltage_sweep` branch before the
step loop (lines 292–296): configure as voltage source, select current
sensing, set compliance, and enable output. -/
def sweepSetupTrace (compliance : ℚ) : List ICall :=
  [ .write ":SOUR:FUNC VOLT",
    .write ":SOUR:VOLT:MODE FIXED",
    .write ":SENS:FUNC \"CURR\"",
    .writeNum ":SENS:CURR:PROT" compliance,
    .write ":OUTP ON" ]

/-- The four writes that configure fast mode (auto-zero off, display off,
concurrent sensing on, output elements voltage+current). -/
def fastConfigTrace : List ICall :=
  [ .write ":SYST:AZER OFF",
    .write ":DISP:ENAB OFF",
    .write ":SENS:FUNC:CONC ON",
    .write ":FORM:ELEM VOLT,CURR" ]

/-- Element-wise evaluation of the level comprehension: each evaluated
element performs `i * (stop - start) / denom`, raising `ZeroDivisionError`
when `denom = 0`. -/
def sweepVoltagesFrom (start stop denom : ℚ) : List ℕ → Except String (List ℚ)
  | [] => .ok []
  | i :: rest =>
    if denom = 0 then .error "division by zero"
    else
      match sweepVoltagesFrom start stop denom rest with
      | .error e => .error e
      | .ok vs => .ok ((start + (i : ℚ) * (stop - start) / denom) :: vs)

/-- `[start_v + i * (stop_v - start_v) / (steps - 1) for i in range(steps)]`
(line 299).  Python raises `ZeroDivisionError` on the first element when
`steps = 1`; when `steps ≤ 0` the comprehension is empty and nothing is
evaluated. -/
def sweepVoltages (start stop : ℚ) (steps : ℤ) : Except String (List ℚ) :=
  sweepVoltagesFrom start stop (((steps : ℚ)) - 1) (List.range steps.toNat)

/-- The two instrument calls of one sweep step: set the level, query a reading. -/
def sweepStepTrace (v : ℚ) : List ICall :=
  [ .writeNum ":SOUR:VOLT" v, .query ":READ?" ]

/-- The sweep step loop (lines 302–314): for each level, write it, query a
reading, parse it as `float(values[0]), float(values[1])`, and record the
entry; the first raised error aborts the loop (the exception propagates to
the outer handler of `process_command`).  `k` is the index of the next
query in the command's oracle.  Returns the calls issued and either the
collected entries or the error. -/
def sweepLoop (oracle : Oracle) : List ℚ → ℕ → List ICall × Except String (List SweepEntry)
  | [], _ => ([], .ok [])
  | v :: vs, k =>
    match oracle k with
    | .error e => (sweepStepTrace v, .error e)
    | .ok reading =>
      match parseReading reading with
      | .error e => (sweepStepTrace v, .error e)
      | .ok mm =>
        let rest := sweepLoop oracle vs (k + 1)
        (sweepStepTrace v ++ rest.1,
         rest.2.map (fun rs => ⟨v, mm.1, mm.2⟩ :: rs))

/-- Result of dispatching one command: successor server state, the
instrument-facing calls issued, and the response sent back. -/
structure StepResult where
  state : ServerState
  trace : List ICall
  response : Response
deriving DecidableEq, Repr

/-- `Keithley2400Server.process_command` (lines 167–369): dispatch one
decoded command against the instrument oracle.  Any error raised inside a
branch that is not handled locally is caught by the outer
`except Exception` (lines 368–369) and becomes a Failure response; the
calls issued before the error remain issued. -/
def process_command (st : ServerState) (oracle : Oracle) : Command → StepResult
  | .write cmd =>
    ⟨st, [.write cmd], .success (some ("Command " ++ cmd ++ " executed")) none⟩
  | .query cmd =>
    match oracle 0 with
    | .error e => ⟨st, [.query cmd], .failure e⟩
    | .ok r => ⟨st, [.query cmd], .success none (some (.str (pyStrip r)))⟩
  | .read =>
    let o := handleRead st.fast_mode st.read_count st.error_count (oracle 0)
    ⟨⟨st.fast_mode, o.read_count, o.error_count⟩, [.query ":READ?"], o.response⟩
  | .setup_voltage_source voltage range compliance =>
    ⟨st,
      [ .write ":SOUR:FUNC VOLT", .write ":SOUR:VOLT:MODE FIXED",
        .writeNum ":SOUR:VOLT" voltage ]
      ++ (match range with | none => [] | some r => [.writeNum ":SOUR:VOLT:RANG" r])
      ++ [ .write ":SENS:FUNC \"CURR\"", .writeNum ":SENS:CURR:PROT" compliance ],
      .success (some "Voltage source setup") none⟩
  | .setup_current_source current range compliance =>
    ⟨st,
      [ .write ":SOUR:FUNC CURR", .write ":SOUR:CURR:MODE FIXED",
        .writeNum ":SOUR:CURR" current ]
      ++ (match range with | none => [] | some r => [.writeNum ":SOUR:CURR:RANG" r])
      ++ [ .write ":SENS:FUNC \"VOLT\"", .writeNum ":SENS:VOLT:PROT" compliance ],
      .success (some "Current source setup") none⟩
  | .output state =>
    ⟨st, [.write (":OUTP " ++ state)], .success (some ("Output " ++ state)) none⟩
  | .voltage_sweep start stop steps compliance =>
    match sweepVoltages start stop steps with
    | .error e => ⟨st, sweepSetupTrace compliance, .failure e⟩
    | .ok vs =>
      let r := sweepLoop oracle vs 0
      match r.2 with
      | .error e => ⟨st, sweepSetupTrace compliance ++ r.1, .failure e⟩
      | .ok rs =>
        ⟨st, sweepSetupTrace compliance ++ r.1 ++ [.write ":OUTP OFF"],
          .success none (some (.sweep rs))⟩
  | .get_status =>
    match oracle 0 with
    | .error e => ⟨st, [.query "*IDN?"], .failure e⟩
    | .ok idn =>
      match oracle 1 with
      | .error e => ⟨st, [.query "*IDN?", .query ":OUTP?"], .failure e⟩
      | .ok outp =>
        match oracle 2 with
        | .error e =>
          ⟨st, [.query "*IDN?", .query ":OUTP?", .query ":SOUR:FUNC?"], .failure e⟩
        | .ok sf =>
          ⟨st, [.query "*IDN?", .query ":OUTP?", .query ":SOUR:FUNC?"],
            .success none (some (.status (pyStrip idn)
              (if pyStrip outp = "1" then "ON" else "OFF") (pyStrip sf)
              st.fast_mode st.read_count st.error_count))⟩
  | .reset =>
    ⟨st,
      [.write "*RST", .write "*CLS"] ++ (if st.fast_mode then fastConfigTrace else []),
      .success (some "Instrument reset") none⟩
  | .set_fast_mode enabled =>
    ⟨{ st with fast_mode := enabled },
      if enabled then fastConfigTrace
      else [.write ":SYST:AZER ON", .write ":DISP:ENAB ON"],
      .success (some (if enabled then "Fast mode enabled" else "Fast mode disabled")) none⟩
  | .unknown tag =>
    ⟨st, [], .failure ("Unknown command type: " ++ tag)⟩

/-- The inner loop of `handle_client` (lines 130–157) over the decoded
commands of one session: strict request/response — each command is fully
processed and answered before the next is read.  Returns the final state,
the session's instrument-facing trace, and the responses in order. -/
def sessionRun : ServerState → List (Command × Oracle) →
    ServerState × List ICall × List Response
  | st, [] => (st, [], [])
  | st, (c, o) :: rest =>
    let r := process_command st o c
    let t := sessionRun r.state rest
    (t.1, r.trace ++ t.2.1, r.response :: t.2.2)

/-- The per-command traces of a session, in order, with the server state
threaded through. -/
def sessionTraces : ServerState → List (Command × Oracle) → List (List ICall)
  | _, [] => []
  | st, (c, o) :: rest =>
    (process_command st o c).trace :: sessionTraces (process_command st o c).state rest

/-- One tick of `stats_reporter` (lines 110–123) acting on the counters:
when at least one read happened since the last reset, both counters are
reset to 0; otherwise nothing changes. -/
def stats_reporter_tick (read_count error_count : ℕ) : ℕ × ℕ :=
  if read_count > 0 then (0, 0) else (read_count, error_count)

/-- `t` is an interleaving of `a` and `b` keeping each list's internal
order.  `handle_client` runs each session in its own thread
(lines 94–99) and `process_command` touches `self.instrument` with no lock
whatsoever, so when two sessions each execute one command concurrently the
scheduler may realise ANY interleaving of the two commands' instrument
call sequences: this relation is the set of instrument-facing traces the
code admits for that scenario. -/
inductive Interleaving : List ICall → List ICall → List ICall → Prop
  | nil : Interleaving [] [] []
  | left {a : ICall} {as bs cs : List ICall} :
      Interleaving as bs cs → Interleaving (a :: as) bs (a :: cs)
  | right {b : ICall} {as bs cs : List ICall} :
      Interleaving as bs cs → Interleaving as (b :: bs) (b :: cs)

/-- The sequence of levels commanded through `:SOUR:VOLT` writes of a trace. -/
def sourVoltLevels (tr : List ICall) : List ℚ :=
  tr.filterMap (fun c => match c with
    | .writeNum ":SOUR:VOLT" v => some v
    | _ => none)

/-- A fast-mode server state with zeroed counters (the state right after startup). -/
def st0 : ServerState := ⟨true, 0, 0⟩

/-- A standard-mode server state with zeroed counters. -/
def stStd : ServerState := ⟨false, 0, 0⟩

/-- An instrument whose every query raises. -/
def o0 : Oracle := fun _ => Except.error "no reply"

/-- An instrument that answers the second sweep read with a timeout and
every other query with a valid two-field reading. -/
def sweepFailOracle : Oracle :=
  fun k => if k = 1 then Except.error "timeout" else Except.ok "0.0,0.001"

/-- Does one read attempt fail (raise) on this reply? -/
def readFails (fast : Bool) (reply : Except String String) : Bool :=
  match readAttempt fast reply with
  | .error _ => true
  | .ok _ => false

/-- The eleven levels of a 0→5 V sweep with 11 steps. -/
def c7levels : List ℚ := [0, 1/2, 1, 3/2, 2, 5/2, 3, 7/2, 4, 9/2, 5]

-- Helper lemmas ---------------------------------------------------------

lemma sessionRun_trace (st : ServerState) (items : List (Command × Oracle)) :
    (sessionRun st items).2.1 = (sessionTraces st items).flatten := by
  induction items generalizing st with
  | nil => simp [sessionRun, sessionTraces]
  | cons p rest ih =>
    obtain ⟨c, o⟩ := p
    simp [sessionRun, sessionTraces, ih]

lemma sessionRun_length (st : ServerState) (items : List (Command × Oracle)) :
    ((sessionRun st items).2.2).length = items.length := by
  induction items generalizing st with
  | nil => simp [sessionRun]
  | cons p rest ih =>
    obtain ⟨c, o⟩ := p
    simp [sessionRun, ih]

lemma sourVoltLevels_append (a b : List ICall) :
    sourVoltLevels (a ++ b) = sourVoltLevels a ++ sourVoltLevels b := by
  simp [sourVoltLevels]

lemma sourVoltLevels_setup (c : ℚ) : sourVoltLevels (sweepSetupTrace c) = [] := rfl

lemma sweepLoop_ok_entries (o : Oracle) :
    ∀ (vs : List ℚ) (k : ℕ) (rs : List SweepEntry),
      (sweepLoop o vs k).2 = Except.ok rs → rs.map SweepEntry.set_voltage = vs := by
  intro vs
  induction vs with
  | nil =>
    intro k rs h
    simp [sweepLoop] at h
    simp [← h]
  | cons v vs ih =>
    intro k rs h
    rcases ho : o k with e | reading
    · simp [sweepLoop, ho] at h
    rcases hp : parseReading reading with e | mm
    · simp [sweepLoop, ho, hp] at h
    rcases hr : (sweepLoop o vs (k + 1)).2 with e | rs2
    · simp [sweepLoop, ho, hp, hr, Except.map] at h
    · simp [sweepLoop, ho, hp, hr, Except.map] at h
      subst h
      simpa using ih (k + 1) rs2 hr

lemma sweepLoop_ok_levels (o : Oracle) :
    ∀ (vs : List ℚ) (k : ℕ) (rs : List SweepEntry),
      (sweepLoop o vs k).2 = Except.ok rs →
      sourVoltLevels (sweepLoop o vs k).1 = vs := by
  intro vs
  induction vs with
  | nil =>
    intro k rs h
    simp [sweepLoop, sourVoltLevels]
  | cons v vs ih =>
    intro k rs h
    rcases ho : o k with e | reading
    · simp [sweepLoop, ho] at h
    rcases hp : parseReading reading with e | mm
    · simp [sweepLoop, ho, hp] at h
    rcases hr : (sweepLoop o vs (k + 1)).2 with e | rs2
    · simp [sweepLoop, ho, hp, hr, Except.map] at h
    · have h1 : (sweepLoop o (v :: vs) k).1
          = sweepStepTrace v ++ (sweepLoop o vs (k + 1)).1 := by
        simp [sweepLoop, ho, hp]
      rw [h1, sourVoltLevels_append]
      have h2 : sourVoltLevels (sweepStepTrace v) = [v] := rfl
      rw [h2, ih (k + 1) rs2 hr]
      simp

lemma outpOff_not_in_step (v : ℚ) :
    ICall.write ":OUTP OFF" ∉ sweepStepTrace v := by
  simp [sweepStepTrace]

lemma outpOff_not_in_setup (c : ℚ) :
    ICall.write ":OUTP OFF" ∉ sweepSetupTrace c := by
  simp [sweepSetupTrace]

lemma sweepLoop_err (o : Oracle) (e : String) :
    ∀ (k : ℕ) (vs : List ℚ) (j : ℕ), k < vs.length →
      (∀ i, i < k → ∃ r p, o (j + i) = Except.ok r ∧ parseReading r = Except.ok p) →
      o (j + k) = Except.error e →
      (sweepLoop o vs j).2 = Except.error e ∧
      (sweepLoop o vs j).1.length = 2 * (k + 1) ∧
      ICall.write ":OUTP OFF" ∉ (sweepLoop o vs j).1 := by
  intro k
  induction k with
  | zero =>
    intro vs j hk hok herr
    rcases vs with _ | ⟨v, vs⟩
    · simp at hk
    · have herr0 : o j = Except.error e := by simpa using herr
      refine ⟨by simp [sweepLoop, herr0], by simp [sweepLoop, herr0, sweepStepTrace], ?_⟩
      have h1 : (sweepLoop o (v :: vs) j).1 = sweepStepTrace v := by
        simp [sweepLoop, herr0]
      rw [h1]
      exact outpOff_not_in_step v
  | succ k ih =>
    intro vs j hk hok herr
    rcases vs with _ | ⟨v, vs⟩
    · simp at hk
    obtain ⟨r, p, hor, hpr⟩ := hok 0 (Nat.succ_pos k)
    have hor0 : o j = Except.ok r := by simpa using hor
    have hok2 : ∀ i, i < k →
        ∃ r2 p2, o ((j + 1) + i) = Except.ok r2 ∧ parseReading r2 = Except.ok p2 := by
      intro i hi
      have := hok (i + 1) (Nat.succ_lt_succ hi)
      simpa [Nat.add_assoc, Nat.add_comm 1 i] using this
    have herr2 : o ((j + 1) + k) = Except.error e := by
      have h3 : (j + 1) + k = j + (k + 1) := by omega
      rw [h3]; exact herr
    have hk2 : k < vs.length := by simpa using Nat.lt_of_succ_lt_succ hk
    obtain ⟨ih1, ih2, ih3⟩ := ih vs (j + 1) hk2 hok2 herr2
    have hred1 : (sweepLoop o (v :: vs) j).1
        = sweepStepTrace v ++ (sweepLoop o vs (j + 1)).1 := by
      simp [sweepLoop, hor0, hpr]
    have hred2 : (sweepLoop o (v :: vs) j).2
        = ((sweepLoop o vs (j + 1)).2).map
            (fun rs => (⟨v, p.1, p.2⟩ : SweepEntry) :: rs) := by
      simp [sweepLoop, hor0, hpr]
    refine ⟨?_, ?_, ?_⟩
    · rw [hred2, ih1]; rfl
    · rw [hred1]
      simp [sweepStepTrace, ih2]
      omega
    · rw [hred1]
      simp only [List.mem_append, not_or]
      exact ⟨outpOff_not_in_step v, ih3⟩

lemma parseOpt_ok_none_iff (values : List String) (i : ℕ) (r : Option ℚ)
    (h : parseOpt values i = Except.ok r) : r = none ↔ values.length ≤ i := by
  rcases hg : values[i]? with _ | v
  · simp [parseOpt, hg] at h
    exact ⟨fun _ => List.getElem?_eq_none_iff.mp hg, fun _ => h.symm⟩
  · have hlt : i < values.length := (List.getElem?_eq_some_iff.mp hg).1
    rcases hp : pyFloat v with _ | x
    · simp [parseOpt, hg, hp] at h
    · simp [parseOpt, hg, hp] at h
      constructor
      · intro hr; rw [← h] at hr; exact absurd hr (by simp)
      · intro hle; omega

lemma parseReading_error_of (s : String)
    (h : (pySplitComma (pyStrip s)).length < 2 ∨
         (∃ v, (pySplitComma (pyStrip s))[0]? = some v ∧ pyFloat v = none) ∨
         (∃ v, (pySplitComma (pyStrip s))[1]? = some v ∧ pyFloat v = none)) :
    ∃ e, parseReading s = Except.error e := by
  rcases hg0 : (pySplitComma (pyStrip s))[0]? with _ | v0
  · exact ⟨"list index out of range", by simp [parseReading, hg0]⟩
  rcases hp0 : pyFloat v0 with _ | x0
  · exact ⟨"could not convert string to float", by simp [parseReading, hg0, hp0]⟩
  rcases hg1 : (pySplitComma (pyStrip s))[1]? with _ | v1
  · exact ⟨"list index out of range", by simp [parseReading, hg0, hp0, hg1]⟩
  rcases hp1 : pyFloat v1 with _ | x1
  · exact ⟨"could not convert string to float", by simp [parseReading, hg0, hp0, hg1, hp1]⟩
  exfalso
  rcases h with h | h | h
  · have : (1 : ℕ) < (pySplitComma (pyStrip s)).length := (List.getElem?_eq_some_iff.mp hg1).1
    omega
  · obtain ⟨v, hv, hpv⟩ := h
    rw [hg0] at hv
    cases Option.some.inj hv
    rw [hpv] at hp0
    exact Option.noConfusion hp0
  · obtain ⟨v, hv, hpv⟩ := h
    rw [hg1] at hv
    cases Option.some.inj hv
    rw [hpv] at hp1
    exact Option.noConfusion hp1

lemma sessionRun_reads (fast : Bool) (replies : List (Except String String)) :
    ∀ (rc ec : ℕ),
      (sessionRun ⟨fast, rc, ec⟩
          (replies.map (fun r => (Command.read, fun _ => r)))).1
        = ⟨fast, rc + replies.length, ec + replies.countP (readFails fast)⟩ := by
  induction replies with
  | nil => intro rc ec; simp [sessionRun]
  | cons r rest ih =>
    intro rc ec
    rcases hra : readAttempt fast r with e | m
    · have hstep : process_command ⟨fast, rc, ec⟩ (fun _ => r) Command.read
          = ⟨⟨fast, rc + 1, ec + 1⟩, [ICall.query ":READ?"],
              Response.failure e⟩ := by
        simp [process_command, handleRead, hra]
      simp only [List.map_cons, sessionRun, hstep]
      rw [ih (rc + 1) (ec + 1)]
      have hcount : (r :: rest).countP (readFails fast)
          = rest.countP (readFails fast) + 1 := by
        simp [List.countP_cons, readFails, hra]
      rw [hcount]
      simp [ServerState.mk.injEq]
      omega
    · have hstep : process_command ⟨fast, rc, ec⟩ (fun _ => r) Command.read
          = ⟨⟨fast, rc + 1, ec⟩, [ICall.query ":READ?"],
              Response.success none (some (RespData.meas m))⟩ := by
        simp [process_command, handleRead, hra]
      simp only [List.map_cons, sessionRun, hstep]
      rw [ih (rc + 1) ec]
      have hcount : (r :: rest).countP (readFails fast)
          = rest.countP (readFails fast) := by
        simp [List.countP_cons, readFails, hra]
      rw [hcount]
      simp [ServerState.mk.injEq]
      omega

-- Claim theorems --------------------------------------------------------

/-- C4: in the fast-mode read path, when the parsed current has absolute
value at or below the fixed epsilon `1e-12` the resistance field of the
returned measurement is the sentinel `1e9` (no division is attempted), and
when it is above the epsilon the resistance field is voltage / current. -/
theorem C4_open_circuit (s : String) (v c : ℚ)
    (h : parseReading s = Except.ok (v, c)) :
    fastEpsilon = 1 / 1000000000000 ∧
    openCircuitResistance = 1000000000 ∧
    ∃ m, readAttempt true (Except.ok s) = Except.ok m ∧
      (|c| ≤ fastEpsilon → m.resistance = some openCircuitResistance) ∧
      (fastEpsilon < |c| → m.resistance = some (v / c)) := by
  refine ⟨rfl, rfl,
    ⟨v, c, some (if fastEpsilon < |c| then v / c else openCircuitResistance),
      some (v * c)⟩, ?_, ?_, ?_⟩
  · simp [readAttempt, h]
  · intro hle
    simp [if_neg (not_lt.mpr hle)]
  · intro hlt
    simp [if_pos hlt]

/-- C4 witness: the claim instantiated at the concrete fast replies
`"5.0,0.0"` (open circuit: sentinel resistance) and `"5.0,2.0"`
(normal division). -/
theorem C4_witness :
    (∃ m, readAttempt true (Except.ok "5.0,0.0") = Except.ok m ∧
      (|(0 : ℚ)| ≤ fastEpsilon → m.resistance = some openCircuitResistance) ∧
      (fastEpsilon < |(0 : ℚ)| → m.resistance = some (5 / 0))) ∧
    (∃ m, readAttempt true (Except.ok "5.0,2.0") = Except.ok m ∧
      (|(2 : ℚ)| ≤ fastEpsilon → m.resistance = some openCircuitResistance) ∧
      (fastEpsilon < |(2 : ℚ)| → m.resistance = some (5 / 2))) :=
  ⟨(C4_open_circuit "5.0,0.0" 5 0 (by with_unfolding_all decide)).2.2,
   (C4_open_circuit "5.0,2.0" 5 2 (by with_unfolding_all decide)).2.2⟩

/-- C5: a successful fast-mode read always carries resistance and power
(together with voltage and current; the wall-clock fields are always
produced by construction), while a successful standard-mode read has
`resistance = None` exactly when the instrument reply has fewer than 3
comma-separated fields and `power = None` exactly when it has fewer
than 4 — neither is ever fabricated. -/
theorem C5_read_shape (s : String) :
    (∀ m, readAttempt true (Except.ok s) = Except.ok m →
        m.resistance.isSome = true ∧ m.power.isSome = true) ∧
    (∀ m, readAttempt false (Except.ok s) = Except.ok m →
        ((m.resistance = none ↔ (pySplitComma (pyStrip s)).length < 3) ∧
         (m.power = none ↔ (pySplitComma (pyStrip s)).length < 4))) := by
  constructor
  · intro m h
    rcases hp : parseReading s with e | vc
    · simp [readAttempt, hp] at h
    · simp [readAttempt, hp] at h
      simp [← h]
  · intro m h
    rcases hp : parseReading s with e | vc
    · simp [readAttempt, hp] at h
    rcases h2 : parseOpt (pySplitComma (pyStrip s)) 2 with e | r
    · simp [readAttempt, hp, h2] at h
    rcases h3 : parseOpt (pySplitComma (pyStrip s)) 3 with e | p
    · simp [readAttempt, hp, h2, h3] at h
    simp [readAttempt, hp, h2, h3] at h
    have hr := parseOpt_ok_none_iff _ 2 r h2
    have hpw := parseOpt_ok_none_iff _ 3 p h3
    constructor
    · rw [← h]
      exact hr.trans (by omega)
    · rw [← h]
      exact hpw.trans (by omega)

/-- C5 witness: the claim instantiated at the two-field reply
`"1.0,2.0"` in fast and in standard mode. -/
theorem C5_witness :
    ((⟨1, 2, some (1/2), some 2⟩ : Measurement).resistance.isSome = true ∧
     (⟨1, 2, some (1/2), some 2⟩ : Measurement).power.isSome = true) ∧
    (((⟨1, 2, none, none⟩ : Measurement).resistance = none
        ↔ (pySplitComma (pyStrip "1.0,2.0")).length < 3) ∧
     ((⟨1, 2, none, none⟩ : Measurement).power = none
        ↔ (pySplitComma (pyStrip "1.0,2.0")).length < 4)) :=
  ⟨(C5_read_shape "1.0,2.0").1 ⟨1, 2, some (1/2), some 2⟩ (by with_unfolding_all decide),
   (C5_read_shape "1.0,2.0").2 ⟨1, 2, none, none⟩ (by with_unfolding_all decide)⟩

/-- C8: every read failure produces a Failure response carrying the error
message (and each session keeps producing exactly one response per
command, so neither the session loop nor the server stops); a failure
classified as a timeout is logged exactly when the error counter after
the increment satisfies `error_count % 20 == 1`, while a failure not
classified as a timeout is always logged. -/
theorem C8_failure_logging (fast : Bool) (rc ec : ℕ) (e : String) :
    (handleRead fast rc ec (Except.error e)).response = Response.failure e ∧
    (isTimeoutMsg e = true →
      ((handleRead fast rc ec (Except.error e)).logged = true ↔ (ec + 1) % 20 = 1)) ∧
    (isTimeoutMsg e = false →
      (handleRead fast rc ec (Except.error e)).logged = true) ∧
    (∀ (st : ServerState) (items : List (Command × Oracle)),
      ((sessionRun st items).2.2).length = items.length) := by
  have hra : readAttempt fast (Except.error e) = Except.error e := by
    cases fast <;> rfl
  refine ⟨by simp [handleRead, hra], ?_, ?_, fun st items => sessionRun_length st items⟩
  · intro ht
    simp [handleRead, hra, ht]
  · intro ht
    simp [handleRead, hra, ht]

/-- C8 witness: a timeout-classified failure at error counter 1 is logged
(1 % 20 = 1), and a non-timeout failure is logged unconditionally. -/
theorem C8_witness :
    ((handleRead true 0 0 (Except.error "timeout expired")).logged = true
        ↔ (0 + 1) % 20 = 1) ∧
    (handleRead true 0 5 (Except.error "bus fault")).logged = true :=
  ⟨(C8_failure_logging true 0 0 "timeout expired").2.1 (by decide),
   (C8_failure_logging true 0 5 "bus fault").2.2.1 (by decide)⟩

/-- C9: the reset command issues `*RST` and `*CLS`, then reapplies the
fast-mode configuration exactly when the fast-mode flag is set, and
returns the Success response; the server state (in particular the
fast-mode flag) is unchanged. -/
theorem C9_reset (st : ServerState) (oracle : Oracle) :
    (process_command st oracle Command.reset).state = st ∧
    (process_command st oracle Command.reset).response
        = Response.success (some "Instrument reset") none ∧
    (st.fast_mode = true →
      (process_command st oracle Command.reset).trace
        = [ICall.write "*RST", ICall.write "*CLS"] ++ fastConfigTrace) ∧
    (st.fast_mode = false →
      (process_command st oracle Command.reset).trace
        = [ICall.write "*RST", ICall.write "*CLS"]) := by
  refine ⟨rfl, rfl, ?_, ?_⟩ <;> intro h <;> simp [process_command, h]

/-- C9 witness: reset evaluated in a fast-mode state and in a
standard-mode state. -/
theorem C9_witness :
    (process_command st0 o0 Command.reset).trace
        = [ICall.write "*RST", ICall.write "*CLS"] ++ fastConfigTrace ∧
    (process_command stStd o0 Command.reset).trace
        = [ICall.write "*RST", ICall.write "*CLS"] :=
  ⟨(C9_reset st0 o0).2.2.1 rfl, (C9_reset stStd o0).2.2.2 rfl⟩

/-- C10: a fast-mode read whose reply has fewer than two comma-separated
fields, or whose first or second field does not parse as a number,
returns a Failure response (the handler is total — the session does not
crash), with the error counter incremented by one and the read counter
already incremented for the attempt. -/
theorem C10_malformed_reply (rc ec : ℕ) (s : String)
    (h : (pySplitComma (pyStrip s)).length < 2 ∨
         (∃ v, (pySplitComma (pyStrip s))[0]? = some v ∧ pyFloat v = none) ∨
         (∃ v, (pySplitComma (pyStrip s))[1]? = some v ∧ pyFloat v = none)) :
    (handleRead true rc ec (Except.ok s)).read_count = rc + 1 ∧
    (handleRead true rc ec (Except.ok s)).error_count = ec + 1 ∧
    ∃ msg, (handleRead true rc ec (Except.ok s)).response = Response.failure msg := by
  obtain ⟨e, he⟩ := parseReading_error_of s h
  have hra : readAttempt true (Except.ok s) = Except.error e := by
    simp [readAttempt, he]
  exact ⟨by simp [handleRead, hra], by simp [handleRead, hra],
    ⟨e, by simp [handleRead, hra]⟩⟩

/-- C10 witness: the single-field reply `"1.0"` (fewer than two fields). -/
theorem C10_witness :
    (handleRead true 0 0 (Except.ok "1.0")).read_count = 0 + 1 ∧
    (handleRead true 0 0 (Except.ok "1.0")).error_count = 0 + 1 ∧
    ∃ msg, (handleRead true 0 0 (Except.ok "1.0")).response = Response.failure msg :=
  C10_malformed_reply 0 0 "1.0" (Or.inl (by decide))

/-- Two-element reply sequence used by the C6 witness: one good reading,
one timeout. -/
def c6replies : List (Except String String) :=
  [Except.ok "1.0,2.0", Except.error "timeout"]

/-- C6: the read counter is incremented on every attempt (also on
failures), the error counter on each failure, so after a session performs
N reads of which E fail the counters are N and E; and the next
statistics-reporter tick after at least one read resets both to 0. -/
theorem C6_counters (fast : Bool) (replies : List (Except String String))
    (hne : replies ≠ []) :
    (∀ rc ec r, (handleRead fast rc ec r).read_count = rc + 1) ∧
    (sessionRun ⟨fast, 0, 0⟩
        (replies.map (fun r => (Command.read, fun _ => r)))).1.read_count
      = replies.length ∧
    (sessionRun ⟨fast, 0, 0⟩
        (replies.map (fun r => (Command.read, fun _ => r)))).1.error_count
      = replies.countP (readFails fast) ∧
    stats_reporter_tick
        (sessionRun ⟨fast, 0, 0⟩
          (replies.map (fun r => (Command.read, fun _ => r)))).1.read_count
        (sessionRun ⟨fast, 0, 0⟩
          (replies.map (fun r => (Command.read, fun _ => r)))).1.error_count
      = (0, 0) := by
  have hfin := sessionRun_reads fast replies 0 0
  rw [hfin]
  have hpos : 0 < replies.length := List.length_pos.mpr hne
  refine ⟨?_, by simp, by simp, ?_⟩
  · intro rc ec r
    cases hra : readAttempt fast r <;> simp [handleRead, hra]
  · simp [stats_reporter_tick, hpos]

/-- C6 witness: two read attempts of which the second fails — counters
(2, 1), then reset by the reporter tick. -/
theorem C6_witness :
    (sessionRun ⟨true, 0, 0⟩
        (c6replies.map (fun r => (Command.read, fun _ => r)))).1.read_count
      = c6replies.length :=
  (C6_counters true c6replies (by decide)).2.1

/-- C7: for a voltage sweep with start 0, stop 5, steps 11, the commanded
level of step i equals `0 + i*(5-0)/10`, and a successful sweep returns
exactly 11 entries in step order whose `set_voltage` values are exactly
the commanded `:SOUR:VOLT` levels, strictly increasing. -/
theorem C7_sweep_levels (st : ServerState) (oracle : Oracle) (compliance : ℚ)
    (rs : List SweepEntry)
    (h : (process_command st oracle (Command.voltage_sweep 0 5 11 compliance)).response
        = Response.success none (some (RespData.sweep rs))) :
    rs.length = 11 ∧
    (∀ i : ℕ, i < 11 → (rs.map SweepEntry.set_voltage)[i]?
        = some (0 + (i : ℚ) * (5 - 0) / ((((11 : ℤ)) : ℚ) - 1))) ∧
    List.Chain' (fun a b => a < b) (rs.map SweepEntry.set_voltage) ∧
    sourVoltLevels
        (process_command st oracle (Command.voltage_sweep 0 5 11 compliance)).trace
      = rs.map SweepEntry.set_voltage := by
  have hv : sweepVoltages 0 5 11 = Except.ok c7levels := by
    with_unfolding_all decide
  rcases hsl : (sweepLoop oracle c7levels 0).2 with e | rs0
  · simp [process_command, hv, hsl] at h
  have hrs : rs0 = rs := by
    simpa [process_command, hv, hsl] using h
  subst hrs
  have hmap := sweepLoop_ok_entries oracle c7levels 0 rs0 hsl
  have hlev := sweepLoop_ok_levels oracle c7levels 0 rs0 hsl
  have htr : (process_command st oracle (Command.voltage_sweep 0 5 11 compliance)).trace
      = sweepSetupTrace compliance ++ (sweepLoop oracle c7levels 0).1
          ++ [ICall.write ":OUTP OFF"] := by
    simp [process_command, hv, hsl]
  refine ⟨?_, ?_, ?_, ?_⟩
  · have := congrArg List.length hmap
    simpa using this
  · intro i hi
    rw [hmap]
    revert hi
    revert i
    with_unfolding_all decide
  · rw [hmap]
    norm_num [c7levels, List.chain'_cons]
  · rw [htr, sourVoltLevels_append, sourVoltLevels_append, sourVoltLevels_setup,
      hlev, hmap]
    rfl

/-- An instrument whose every read succeeds with the fixed reading
`"0.0,0.001"`. -/
def goodOracle : Oracle := fun _ => Except.ok "0.0,0.001"

/-- The result entries of a 0→5 V, 11-step sweep against `goodOracle`. -/
def c7entries : List SweepEntry := c7levels.map (fun v => ⟨v, 0, 1/1000⟩)

set_option maxRecDepth 4000 in
/-- C7 witness: the sweep executed against a concrete always-succeeding
instrument yields the 11 expected entries. -/
theorem C7_witness : c7entries.length = 11 :=
  (C7_sweep_levels st0 goodOracle (1/10) c7entries
    (by with_unfolding_all decide)).1

/-- C1 (amended): within one session, `handle_client` handles commands
strictly sequentially — the session's instrument-facing trace is exactly
the concatenation of its commands' whole-operation traces in order, with
one response per command.  (Across two concurrent sessions the code holds
no lock, so no such guarantee exists: see the counterexample.) -/
theorem C1_serial_per_session (st : ServerState) (items : List (Command × Oracle)) :
    (sessionRun st items).2.1 = (sessionTraces st items).flatten ∧
    ((sessionRun st items).2.2).length = items.length :=
  ⟨sessionRun_trace st items, sessionRun_length st items⟩

/-- A global instrument-call sequence obtainable when one session runs
`setup_voltage_source` concurrently with another session's `output ON`:
the `:OUTP ON` write lands between the first and second setup write. -/
def mixedTrace : List ICall :=
  [ ICall.write ":SOUR:FUNC VOLT",
    ICall.write ":OUTP ON",
    ICall.write ":SOUR:VOLT:MODE FIXED",
    ICall.writeNum ":SOUR:VOLT" 1,
    ICall.write ":SENS:FUNC \"CURR\"",
    ICall.writeNum ":SENS:CURR:PROT" (1/10) ]

/-- C1 counterexample: the unsynchronized threads of `handle_client` admit
an interleaving of two concurrently issued commands' instrument calls that
is not a serialization of whole operations — `mixedTrace` interleaves the
calls of `setup_voltage_source` and `output ON` and differs from both
serial orders, refuting the claimed total order of whole operations. -/
theorem C1_counterexample :
    Interleaving
        (process_command st0 o0 (Command.setup_voltage_source 1 none (1/10))).trace
        (process_command st0 o0 (Command.output "ON")).trace
        mixedTrace ∧
    mixedTrace
        ≠ (process_command st0 o0 (Command.setup_voltage_source 1 none (1/10))).trace
          ++ (process_command st0 o0 (Command.output "ON")).trace ∧
    mixedTrace
        ≠ (process_command st0 o0 (Command.output "ON")).trace
          ++ (process_command st0 o0 (Command.setup_voltage_source 1 none (1/10))).trace := by
  refine ⟨?_, by with_unfolding_all decide, by with_unfolding_all decide⟩
  have ha : (process_command st0 o0 (Command.setup_voltage_source 1 none (1/10))).trace
      = [ ICall.write ":SOUR:FUNC VOLT", ICall.write ":SOUR:VOLT:MODE FIXED",
          ICall.writeNum ":SOUR:VOLT" 1, ICall.write ":SENS:FUNC \"CURR\"",
          ICall.writeNum ":SENS:CURR:PROT" (1/10) ] := rfl
  have hb : (process_command st0 o0 (Command.output "ON")).trace
      = [ICall.write ":OUTP ON"] := rfl
  rw [ha, hb]
  exact .left (.right (.left (.left (.left (.left .nil)))))

/-- C3 (amended): there is no steps-validation and no sweep request is
rejected before instrument traffic.  A sweep with `steps ≤ 0` returns a
SUCCESS response with an empty result list after issuing the five setup
writes (including `:OUTP ON`) and `:OUTP OFF`; a sweep with `steps = 1`
returns a Failure (the division-by-zero of the level computation) only
after the five setup writes, leaving output commanded ON. -/
theorem C3_no_validation (st : ServerState) (oracle : Oracle)
    (start stop compliance : ℚ) (steps : ℤ) :
    (steps ≤ 0 →
      process_command st oracle (Command.voltage_sweep start stop steps compliance)
        = ⟨st, sweepSetupTrace compliance ++ [ICall.write ":OUTP OFF"],
            Response.success none (some (RespData.sweep []))⟩) ∧
    (steps = 1 →
      process_command st oracle (Command.voltage_sweep start stop steps compliance)
        = ⟨st, sweepSetupTrace compliance, Response.failure "division by zero"⟩) := by
  constructor
  · intro hle
    have h0 : steps.toNat = 0 := Int.toNat_of_nonpos hle
    have hv : sweepVoltages start stop steps = Except.ok [] := by
      simp [sweepVoltages, h0, sweepVoltagesFrom]
    simp [process_command, hv, sweepLoop]
  · intro h1
    subst h1
    have hv : sweepVoltages start stop 1 = Except.error "division by zero" := by
      norm_num [sweepVoltages, sweepVoltagesFrom]
    simp [process_command, hv]

/-- C3 counterexample: a sweep with `steps = 0` (< 2) is not rejected
before instrument interaction — it returns a Success response (not the
claimed validation Failure) and its trace is nonempty (the instrument
does see traffic). -/
theorem C3_counterexample :
    (process_command st0 o0 (Command.voltage_sweep 0 5 0 (1/10))).response
        = Response.success none (some (RespData.sweep [])) ∧
    (process_command st0 o0 (Command.voltage_sweep 0 5 0 (1/10))).trace ≠ [] := by
  with_unfolding_all decide

/-- C3 witness: the amended behavior evaluated at `steps = 0` and
`steps = 1`. -/
theorem C3_witness :
    process_command st0 o0 (Command.voltage_sweep 0 5 0 (1/10))
        = ⟨st0, sweepSetupTrace (1/10) ++ [ICall.write ":OUTP OFF"],
            Response.success none (some (RespData.sweep []))⟩ ∧
    process_command st0 o0 (Command.voltage_sweep 0 5 1 (1/10))
        = ⟨st0, sweepSetupTrace (1/10), Response.failure "division by zero"⟩ :=
  ⟨(C3_no_validation st0 o0 0 5 (1/10) 0).1 (by decide),
   (C3_no_validation st0 o0 0 5 (1/10) 1).2 rfl⟩

/-- C2 (amended): when the instrument read of sweep step k raises, the
remaining steps are skipped and a Failure response carrying only the
error message — and none of the k already-collected step results — is
returned; the `:OUTP OFF` safety write is NOT issued (the exception
propagates past it to the outer handler), so output remains commanded ON. -/
theorem C2_sweep_abort (st : ServerState) (oracle : Oracle)
    (start stop : ℚ) (steps : ℤ) (compliance : ℚ) (vs : List ℚ)
    (hvs : sweepVoltages start stop steps = Except.ok vs)
    (k : ℕ) (hk : k < vs.length)
    (hok : ∀ i, i < k → ∃ r p, oracle i = Except.ok r ∧ parseReading r = Except.ok p)
    (e : String) (herr : oracle k = Except.error e) :
    (process_command st oracle (Command.voltage_sweep start stop steps compliance)).response
        = Response.failure e ∧
    ICall.write ":OUTP OFF"
        ∉ (process_command st oracle (Command.voltage_sweep start stop steps compliance)).trace ∧
    (process_command st oracle (Command.voltage_sweep start stop steps compliance)).trace.length
        = 5 + 2 * (k + 1) := by
  have hok0 : ∀ i, i < k →
      ∃ r p, oracle (0 + i) = Except.ok r ∧ parseReading r = Except.ok p := by
    intro i hi
    simpa using hok i hi
  have herr0 : oracle (0 + k) = Except.error e := by simpa using herr
  obtain ⟨h2, hlen, hnotin⟩ := sweepLoop_err oracle e k vs 0 hk hok0 herr0
  have htr : (process_command st oracle
      (Command.voltage_sweep start stop steps compliance)).trace
      = sweepSetupTrace compliance ++ (sweepLoop oracle vs 0).1 := by
    simp [process_command, hvs, h2]
  refine ⟨by simp [process_command, hvs, h2], ?_, ?_⟩
  · rw [htr]
    simp only [List.mem_append, not_or]
    exact ⟨outpOff_not_in_setup compliance, hnotin⟩
  · rw [htr]
    simp [sweepSetupTrace, hlen]
    omega

set_option maxRecDepth 4000 in
/-- C2 counterexample: a 3-step sweep whose step-1 read times out after a
successful step 0.  The claim requires the output-OFF command to still be
issued and the Failure to carry the one collected result; the code does
neither — the response is a bare Failure with only the error message and
`:OUTP OFF` is absent from the instrument trace. -/
theorem C2_counterexample :
    (process_command st0 sweepFailOracle (Command.voltage_sweep 0 5 3 (1/10))).response
        = Response.failure "timeout" ∧
    ICall.write ":OUTP OFF"
        ∉ (process_command st0 sweepFailOracle (Command.voltage_sweep 0 5 3 (1/10))).trace := by
  with_unfolding_all decide

set_option maxRecDepth 4000 in
/-- C2 witness: the amended abort behavior applied to the concrete
3-step sweep failing at step 1 (trace length 5 + 2·2: setup plus the two
attempted steps, nothing further). -/
theorem C2_witness :
    (process_command st0 sweepFailOracle (Command.voltage_sweep 0 5 3 (1/10))).response
        = Response.failure "timeout" ∧
    ICall.write ":OUTP OFF"
        ∉ (process_command st0 sweepFailOracle (Command.voltage_sweep 0 5 3 (1/10))).trace ∧
    (process_command st0 sweepFailOracle (Command.voltage_sweep 0 5 3 (1/10))).trace.length
        = 5 + 2 * (1 + 1) :=
  C2_sweep_abort st0 sweepFailOracle 0 5 3 (1/10) [0, 5/2, 5]
    (by with_unfolding_all decide) 1 (by decide)
    (fun i hi => by
      have h0 : i = 0 := Nat.lt_one_iff.mp hi
      subst h0
      exact ⟨"0.0,0.001", (0, 1/1000), by decide, by with_unfolding_all decide⟩)
    "timeout" (by decide)
